import Mathlib

/-!
Shallow embedding of the `node-play` probe application.

Source files embedded here:
* `src/hello.js` — a standalone HTTP listener answering every request with a
  fixed JSON body on port 8080.
* `src/pages/<ssr page>` (`getServerSideProps`) — per-request server rendering:
  on each request returns `props` holding the current time as an ISO-8601
  string and the `HOSTNAME` environment value (with a literal fallback).
* `src/pages/isr.js` (`getStaticProps`) — windowed-cache page: returns the
  same snapshot fields plus a `nextRevalidation` display field and a
  `revalidate: 10` policy.

JavaScript objects are embedded as association lists `List (String × String)`
(field order and field set are observable in JS), machine time as `Nat`
milliseconds since the Unix epoch, and the environment as `Option String`
(`none` = variable unset).  `Date.prototype.toISOString` is embedded by the
ECMA-262 algorithm (`YearFromTime` via the greatest year whose first day is
not after the given day, `MonthFromTime`/`DateFromTime` via cumulative day
thresholds), restricted to nonnegative times before the year 10000, where the
format is `YYYY-MM-DDTHH:mm:ss.sssZ`.
-/

/-- ECMA-262 `DayFromYear`: days from the epoch 1970-01-01 to the first day
of year `y` (meaningful for `y ≥ 1970`). -/
def dayFromYear (y : Nat) : Nat :=
  365 * (y - 1970) + (y - 1969) / 4 - (y - 1901) / 100 + (y - 1601) / 400

/-- Fuel-bounded upward search for ECMA-262 `YearFromTime`: starting at year
`y`, keep advancing while the next year still begins on or before day `d`. -/
def yearFromDaysAux (d : Nat) : Nat → Nat → Nat
  | y, 0 => y
  | y, fuel + 1 => if dayFromYear (y + 1) ≤ d then yearFromDaysAux d (y + 1) fuel else y

/-- ECMA-262 `YearFromTime` on a day number: the greatest year `y ≥ 1970`
with `dayFromYear y ≤ d`. -/
def yearFromDays (d : Nat) : Nat :=
  yearFromDaysAux d 1970 (d / 365 + 1)

/-- Day number (days since the epoch) of a time in milliseconds. -/
def daysOf (t : Nat) : Nat := t / 86400000

/-- Milliseconds within the day. -/
def msodOf (t : Nat) : Nat := t % 86400000

/-- ECMA-262 `HourFromTime`. -/
def hourOf (t : Nat) : Nat := msodOf t / 3600000

/-- ECMA-262 `MinFromTime`. -/
def minOf (t : Nat) : Nat := msodOf t % 3600000 / 60000

/-- ECMA-262 `SecFromTime`. -/
def secOf (t : Nat) : Nat := msodOf t % 60000 / 1000

/-- ECMA-262 `msFromTime`. -/
def milliOf (t : Nat) : Nat := msodOf t % 1000

/-- ECMA-262 `DayWithinYear`, on a day number. -/
def dayWithinYear (d : Nat) : Nat := d - dayFromYear (yearFromDays d)

/-- ECMA-262 `InLeapYear`, on a day number: `1` when the current year has
366 days, else `0`. -/
def inLeapYear (d : Nat) : Nat :=
  dayFromYear (yearFromDays d + 1) - dayFromYear (yearFromDays d) - 365

/-- ECMA-262 `MonthFromTime` as a function of the day within the year `w` and
the leap flag `L`, shifted to the 1-based month used by the ISO-8601
rendering. -/
def monthFromDW (w L : Nat) : Nat :=
  if w < 31 then 1
  else if w < 59 + L then 2
  else if w < 90 + L then 3
  else if w < 120 + L then 4
  else if w < 151 + L then 5
  else if w < 181 + L then 6
  else if w < 212 + L then 7
  else if w < 243 + L then 8
  else if w < 273 + L then 9
  else if w < 304 + L then 10
  else if w < 334 + L then 11
  else 12

/-- ECMA-262 `DateFromTime` as a function of the day within the year `w` and
the leap flag `L`: the 1-based day of the month. -/
def dateFromDW (w L : Nat) : Nat :=
  if w < 31 then w + 1
  else if w < 59 + L then w - 30
  else if w < 90 + L then w - 58 - L
  else if w < 120 + L then w - 89 - L
  else if w < 151 + L then w - 119 - L
  else if w < 181 + L then w - 150 - L
  else if w < 212 + L then w - 180 - L
  else if w < 243 + L then w - 211 - L
  else if w < 273 + L then w - 242 - L
  else if w < 304 + L then w - 272 - L
  else if w < 334 + L then w - 303 - L
  else w - 333 - L

/-- Day within the March-based year: the civil-calendar day `w` (0-based, leap
flag `L`) counted from the preceding March 1. -/
def marDay (w L : Nat) : Nat := if w < 59 + L then w + 306 else w - (59 + L)

/-- Arithmetic form of `monthFromDW` via the March-based year (used by the
proofs; equal to `monthFromDW` on the valid domain, see `month_bridge`). -/
def monthFromDWMar (w L : Nat) : Nat :=
  if (5 * marDay w L + 2) / 153 < 10 then (5 * marDay w L + 2) / 153 + 3
  else (5 * marDay w L + 2) / 153 - 9

/-- Arithmetic form of `dateFromDW` via the March-based year (used by the
proofs; equal to `dateFromDW` on the valid domain, see `month_bridge`). -/
def dateFromDWMar (w L : Nat) : Nat :=
  marDay w L - (153 * ((5 * marDay w L + 2) / 153) + 2) / 5 + 1

/-- Month (1-based) of a day number. -/
def monthFromDay (d : Nat) : Nat := monthFromDW (dayWithinYear d) (inLeapYear d)

/-- Day of month (1-based) of a day number. -/
def dateFromDay (d : Nat) : Nat := dateFromDW (dayWithinYear d) (inLeapYear d)

/-- Calendar year of a time. -/
def yearOf (t : Nat) : Nat := yearFromDays (daysOf t)

/-- Calendar month (1-based) of a time. -/
def monthOf (t : Nat) : Nat := monthFromDay (daysOf t)

/-- Day of month (1-based) of a time. -/
def dateOf (t : Nat) : Nat := dateFromDay (daysOf t)

/-- Fixed-width decimal rendering of `n`, `w` digits, leading zeros. -/
def padDigits : Nat → Nat → List Char
  | 0, _ => []
  | w + 1, n => padDigits w (n / 10) ++ [Nat.digitChar (n % 10)]

/-- First millisecond of the year 10000; below it `toISOString` uses the
fixed 24-character `YYYY-MM-DDTHH:mm:ss.sssZ` layout. -/
def isoBound : Nat := 253402300800000

/-- Character list of the ISO-8601 rendering of time `t`. -/
def isoChars (t : Nat) : List Char :=
  padDigits 4 (yearOf t) ++ '-' ::
  (padDigits 2 (monthOf t) ++ '-' ::
  (padDigits 2 (dateOf t) ++ 'T' ::
  (padDigits 2 (hourOf t) ++ ':' ::
  (padDigits 2 (minOf t) ++ ':' ::
  (padDigits 2 (secOf t) ++ '.' ::
  (padDigits 3 (milliOf t) ++ ['Z']))))))

/-- Embedding of `new Date(t).toISOString()` for `0 ≤ t < isoBound`. -/
def toISOString (t : Nat) : String := ⟨isoChars t⟩

/-- Embedding of the JavaScript expression `v || fallback` where `v` is an
environment variable (a string or `undefined`): `undefined` and the empty
string are the only falsy cases. -/
def jsStringOr (v : Option String) (fallback : String) : String :=
  match v with
  | none => fallback
  | some s => if s = "" then fallback else s

/-- The literal fallback used by both pages when `process.env.HOSTNAME` is
not set (src/pages line `process.env.HOSTNAME || '...'`). -/
def fallbackHostname : String := "Not set (check your platform configuration)"

/-- Result of a Next.js page-generation function: a `props` object plus an
optional `revalidate` policy (absent for the SSR page). -/
structure GenResult where
  props : List (String × String)
  revalidate : Option Nat
  deriving Repr, DecidableEq

/-- Embedding of `getServerSideProps` from the SSR page: reads the clock and
`process.env.HOSTNAME`, returns `\x7b props: \x7b serverTime, hostname \x7d \x7d`. -/
def getServerSideProps (now : Nat) (env : Option String) : GenResult :=
  { props := [("serverTime", toISOString now),
              ("hostname", jsStringOr env fallbackHostname)],
    revalidate := none }

/-- Embedding of `getStaticProps` from `src/pages/isr.js`: reads the clock and
`process.env.HOSTNAME`, returns props `renderTime`, `hostname`,
`nextRevalidation` (= `new Date(Date.now() + 10000).toISOString()`), and the
policy `revalidate: 10`. -/
def getStaticProps (now : Nat) (env : Option String) : GenResult :=
  { props := [("renderTime", toISOString now),
              ("hostname", jsStringOr env fallbackHostname),
              ("nextRevalidation", toISOString (now + 10000))],
    revalidate := some 10 }

/-- JSON escaping of one character, as in `JSON.stringify`. -/
def jsonEscapeChar (c : Char) : String :=
  if c = '"' then "\\\""
  else if c = '\\' then "\\\\"
  else if c = '\x08' then "\\b"
  else if c = '\x09' then "\\t"
  else if c = '\x0a' then "\\n"
  else if c = '\x0c' then "\\f"
  else if c = '\x0d' then "\\r"
  else if c.val < 32 then
    "\\u00" ++ ⟨[Nat.digitChar (c.toNat / 16), Nat.digitChar (c.toNat % 16)]⟩
  else String.singleton c

/-- `JSON.stringify` of a string. -/
def jsonStringifyString (s : String) : String :=
  "\"" ++ String.join (s.data.map jsonEscapeChar) ++ "\""

/-- `JSON.stringify` of a flat object with string values. -/
def jsonStringifyObj (fields : List (String × String)) : String :=
  "\x7b" ++
    String.intercalate ","
      (fields.map fun p => jsonStringifyString p.1 ++ ":" ++ jsonStringifyString p.2) ++
  "\x7d"

/-- An HTTP request as seen by the `src/hello.js` handler. -/
structure HttpRequest where
  method : String
  url : String
  headers : List (String × String)
  body : String
  deriving Repr, DecidableEq

/-- An HTTP response produced by the `src/hello.js` handler. -/
structure HttpResponse where
  statusCode : Nat
  headers : List (String × String)
  body : String
  deriving Repr, DecidableEq

/-- Embedding of the request handler in `src/hello.js`:
`res.writeHead(200, ...)` then `res.end(JSON.stringify(...))`. -/
def helloHandler (_req : HttpRequest) : HttpResponse :=
  { statusCode := 200,
    headers := [("Content-Type", "application/json")],
    body := jsonStringifyObj [("message", "Hello World!")] }

/-- The fixed TCP port passed to `.listen` in `src/hello.js`. -/
def helloPort : Nat := 8080

/-- Modelled from the spec: the revalidation window in milliseconds.  The
regeneration engine itself lives in the external Rendering Runtime, not in
this repository; the window length is the `revalidate` value (in seconds)
declared by `getStaticProps`. -/
def revalidateWindowMs : Nat :=
  1000 * ((getStaticProps 0 none).revalidate.getD 0)

/-- Modelled from the spec: the single-slot cache state kept by the Rendering
Runtime for the windowed-cache page — the cached PageSnapshot props, the time
it was generated, whether a background regeneration is in flight, and a
counted side effect recording how many regenerations have been triggered. -/
structure IsrCache where
  snapshot : List (String × String)
  generatedAt : Nat
  regenInFlight : Bool
  regenCount : Nat
  deriving Repr, DecidableEq

/-- Modelled from the spec: a snapshot is Stale once `revalidateWindowMs`
milliseconds have elapsed since it was generated, Fresh before that. -/
def isStale (c : IsrCache) (t : Nat) : Bool :=
  decide (c.generatedAt + revalidateWindowMs ≤ t)

/-- Modelled from the spec: serving one request at time `t`.  The cached
snapshot is always returned immediately (stale-while-revalidate, never block);
if the snapshot is Stale and no regeneration is in flight, one background
regeneration is triggered (single-flight). -/
def serveRequest (c : IsrCache) (t : Nat) : IsrCache × List (String × String) :=
  if isStale c t && !c.regenInFlight then
    ({ c with regenInFlight := true, regenCount := c.regenCount + 1 }, c.snapshot)
  else (c, c.snapshot)

/-- Modelled from the spec: completion of a background regeneration at time
`t` with environment `env`: the freshly generated props from `getStaticProps`
atomically replace the cached snapshot and the page becomes Fresh from `t`. -/
def completeRegen (c : IsrCache) (t : Nat) (env : Option String) : IsrCache :=
  if c.regenInFlight then
    { snapshot := (getStaticProps t env).props,
      generatedAt := t,
      regenInFlight := false,
      regenCount := c.regenCount }
  else c

/-- Modelled from the spec: serving a sequence of requests in arrival order,
collecting the snapshot returned to each requester. -/
def serveAll (c : IsrCache) : List Nat → IsrCache × List (List (String × String))
  | [] => (c, [])
  | t :: ts =>
    let s := serveRequest c t
    let rest := serveAll s.1 ts
    (rest.1, s.2 :: rest.2)

/-- Modelled from the spec: the cache state right after a generation at time
`t0` with environment `env0`, with `n` regenerations counted so far. -/
def initCache (t0 : Nat) (env0 : Option String) (n : Nat) : IsrCache :=
  { snapshot := (getStaticProps t0 env0).props,
    generatedAt := t0,
    regenInFlight := false,
    regenCount := n }

/-! ## Theorems -/

lemma padDigits_length (w n : Nat) : (padDigits w n).length = w := by
  induction w generalizing n with
  | zero => rfl
  | succ w ih => simp [padDigits, ih]

lemma dayFromYear_succ {y : Nat} (h : 1970 ≤ y) :
    dayFromYear y + 365 ≤ dayFromYear (y + 1) ∧
    dayFromYear (y + 1) ≤ dayFromYear y + 366 := by
  unfold dayFromYear; omega

lemma dayFromYear_mono {a b : Nat} (h0 : 1970 ≤ a) (h : a ≤ b) :
    dayFromYear a ≤ dayFromYear b := by
  induction b with
  | zero => omega
  | succ b ih =>
    rcases Nat.lt_or_ge a (b + 1) with hlt | hge
    · have hab : a ≤ b := by omega
      have h1 := dayFromYear_succ (y := b) (by omega)
      have h2 := ih hab
      omega
    · have heq : a = b + 1 := by omega
      subst heq
      exact le_rfl

lemma yearFromDaysAux_spec (d : Nat) :
    ∀ (fuel y : Nat), 1970 ≤ y → dayFromYear y ≤ d → d < dayFromYear (y + fuel) →
      1970 ≤ yearFromDaysAux d y fuel ∧
      dayFromYear (yearFromDaysAux d y fuel) ≤ d ∧
      d < dayFromYear (yearFromDaysAux d y fuel + 1) := by
  intro fuel
  induction fuel with
  | zero =>
    intro y h1 h2 h3
    simp only [Nat.add_zero] at h3
    omega
  | succ fuel ih =>
    intro y h1 h2 h3
    unfold yearFromDaysAux
    by_cases hc : dayFromYear (y + 1) ≤ d
    · simp only [hc, if_true]
      exact ih (y + 1) (by omega) hc
        (by rw [show y + 1 + fuel = y + (fuel + 1) by omega]; exact h3)
    · simp only [hc, if_false]
      exact ⟨h1, h2, by omega⟩

lemma fuel_sufficient (d : Nat) : d < dayFromYear (1970 + (d / 365 + 1)) := by
  unfold dayFromYear; omega

lemma yearFromDays_spec (d : Nat) :
    1970 ≤ yearFromDays d ∧
    dayFromYear (yearFromDays d) ≤ d ∧ d < dayFromYear (yearFromDays d + 1) := by
  have h0 : dayFromYear 1970 ≤ d := by unfold dayFromYear; omega
  exact yearFromDaysAux_spec d (d / 365 + 1) 1970 le_rfl h0 (fuel_sufficient d)

lemma yearFromDays_mono {a b : Nat} (h : a ≤ b) : yearFromDays a ≤ yearFromDays b := by
  by_contra hlt
  push_neg at hlt
  have ha := yearFromDays_spec a
  have hb := yearFromDays_spec b
  have hc : dayFromYear (yearFromDays b + 1) ≤ dayFromYear (yearFromDays a) :=
    dayFromYear_mono (by omega) (by omega)
  omega

lemma dayFromYear_10000 : dayFromYear 10000 = 2932897 := by decide

lemma yearFromDays_le_9999 {d : Nat} (h : d < 2932897) : yearFromDays d ≤ 9999 := by
  by_contra hgt
  push_neg at hgt
  have hs := yearFromDays_spec d
  have h2 : dayFromYear 10000 ≤ dayFromYear (yearFromDays d) :=
    dayFromYear_mono (by omega) (by omega)
  rw [dayFromYear_10000] at h2
  omega

lemma daysInYear_bounds {y : Nat} (h : 1970 ≤ y) :
    365 ≤ dayFromYear (y + 1) - dayFromYear y ∧
    dayFromYear (y + 1) - dayFromYear y ≤ 366 := by
  have := dayFromYear_succ h
  omega

lemma dayWithinYear_bounds (d : Nat) :
    dayWithinYear d < 365 + inLeapYear d ∧ inLeapYear d ≤ 1 := by
  have hs := yearFromDays_spec d
  have hd := daysInYear_bounds hs.1
  unfold dayWithinYear inLeapYear
  omega

set_option maxRecDepth 40000 in
lemma month_bridge : ∀ L, L < 2 → ∀ w, w < 365 + L →
    monthFromDW w L = monthFromDWMar w L ∧ dateFromDW w L = dateFromDWMar w L := by
  decide

lemma monthDW_date_mono {w1 w2 L : Nat} (h : w1 < w2) (hb : w2 < 365 + L) (hL : L ≤ 1) :
    monthFromDW w1 L < monthFromDW w2 L ∨
    (monthFromDW w1 L = monthFromDW w2 L ∧ dateFromDW w1 L < dateFromDW w2 L) := by
  have b1 := month_bridge L (by omega) w1 (by omega)
  have b2 := month_bridge L (by omega) w2 (by omega)
  rw [b1.1, b1.2, b2.1, b2.2]
  unfold monthFromDWMar dateFromDWMar marDay
  by_cases h1 : w1 < 59 + L <;> by_cases h2 : w2 < 59 + L <;>
    simp only [h1, h2, if_true, if_false, ite_true, ite_false] <;>
    split_ifs <;> omega

lemma monthFromDW_le_12 {w L : Nat} (hb : w < 365 + L) (hL : L ≤ 1) :
    monthFromDW w L ≤ 12 := by
  have b := month_bridge L (by omega) w (by omega)
  rw [b.1]
  unfold monthFromDWMar marDay
  by_cases h1 : w < 59 + L <;> simp only [h1, if_true, if_false, ite_true, ite_false] <;>
    split_ifs <;> omega

lemma dateFromDW_le_31 {w L : Nat} (hb : w < 365 + L) (hL : L ≤ 1) :
    dateFromDW w L ≤ 31 := by
  have b := month_bridge L (by omega) w (by omega)
  rw [b.2]
  unfold dateFromDWMar marDay
  by_cases h1 : w < 59 + L <;> simp only [h1, if_true, if_false, ite_true, ite_false] <;>
    omega

lemma dateTriple_mono {d1 d2 : Nat} (hd : d1 < d2) :
    yearFromDays d1 < yearFromDays d2 ∨
    (yearFromDays d1 = yearFromDays d2 ∧
      (monthFromDay d1 < monthFromDay d2 ∨
       (monthFromDay d1 = monthFromDay d2 ∧ dateFromDay d1 < dateFromDay d2))) := by
  rcases Nat.lt_or_ge (yearFromDays d1) (yearFromDays d2) with hy | hy
  · exact Or.inl hy
  · have hym := yearFromDays_mono (Nat.le_of_lt hd)
    have hyy : yearFromDays d1 = yearFromDays d2 := by omega
    refine Or.inr ⟨hyy, ?_⟩
    have h1 := yearFromDays_spec d1
    have hL : inLeapYear d1 = inLeapYear d2 := by unfold inLeapYear; rw [hyy]
    have hw : dayWithinYear d1 < dayWithinYear d2 := by
      unfold dayWithinYear
      rw [hyy]
      rw [hyy] at h1
      omega
    have hb2 := dayWithinYear_bounds d2
    unfold monthFromDay dateFromDay
    rw [hL]
    exact monthDW_date_mono hw hb2.1 hb2.2

lemma lex_append_of_lex {a b : List Char} (u v : List Char)
    (hlen : a.length = b.length) (h : List.Lex (· < ·) a b) :
    List.Lex (· < ·) (a ++ u) (b ++ v) := by
  induction h with
  | nil => simp at hlen
  | rel hr => exact List.Lex.rel hr
  | cons _ ih =>
    simp only [List.length_cons, Nat.succ.injEq] at hlen
    exact List.Lex.cons (ih hlen)

lemma digitChar_lt : ∀ a, a < 10 → ∀ b, b < 10 → a < b →
    Nat.digitChar a < Nat.digitChar b := by decide

lemma padDigits_lt {w a b : Nat} (ha : a < 10 ^ w) (hb : b < 10 ^ w) (h : a < b) :
    List.Lex (· < ·) (padDigits w a) (padDigits w b) := by
  induction w generalizing a b with
  | zero => exact absurd h (by simp at hb; omega)
  | succ w ih =>
    have h10 : (10 : Nat) ^ (w + 1) = 10 ^ w * 10 := pow_succ 10 w
    rcases Nat.lt_or_ge (a / 10) (b / 10) with hq | hq
    · exact lex_append_of_lex _ _ (by simp [padDigits_length])
        (ih (Nat.div_lt_of_lt_mul (by omega)) (Nat.div_lt_of_lt_mul (by omega)) hq)
    · have hq2 : a / 10 = b / 10 := by omega
      have hr : a % 10 < b % 10 := by omega
      show List.Lex (· < ·) (padDigits w (a / 10) ++ _) (padDigits w (b / 10) ++ _)
      rw [hq2]
      exact List.Lex.append_left _
        (List.Lex.rel
          (digitChar_lt _ (Nat.mod_lt a (by omega)) _ (Nat.mod_lt b (by omega)) hr)) _

lemma lex_pad_step {w a b : Nat} (c : Char) {r1 r2 : List Char}
    (ha : a < 10 ^ w) (hb : b < 10 ^ w)
    (h : a < b ∨ (a = b ∧ List.Lex (· < ·) r1 r2)) :
    List.Lex (· < ·) (padDigits w a ++ c :: r1) (padDigits w b ++ c :: r2) := by
  rcases h with h | ⟨rfl, h⟩
  · exact lex_append_of_lex _ _ (by simp [padDigits_length]) (padDigits_lt ha hb h)
  · exact List.Lex.append_left _ (List.Lex.cons h) _

lemma toISOString_length (t : Nat) : (toISOString t).length = 24 := by
  show (isoChars t).length = 24
  simp [isoChars, padDigits_length]

/-- C1: the windowed-cache page's generation function returns `revalidate = 10`
(the RevalidationPolicy in seconds); the on-demand page's generation function
returns no `revalidate` field. -/
theorem claim_C1 : ∀ (now : Nat) (env : Option String),
    (getStaticProps now env).revalidate = some 10 ∧
    (getServerSideProps now env).revalidate = none :=
  fun _ _ => ⟨rfl, rfl⟩

/-- C2: the standalone HTTP listener answers every request with status 200,
header `Content-Type: application/json`, and the exact body
`\x7b"message":"Hello World!"\x7d`, listening on the fixed TCP port 8080. -/
theorem claim_C2 : ∀ req : HttpRequest,
    helloHandler req =
      { statusCode := 200,
        headers := [("Content-Type", "application/json")],
        body := "\x7b\"message\":\"Hello World!\"\x7d" } ∧
    helloPort = 8080 :=
  fun _ => ⟨rfl, rfl⟩

/-- C9 (implicit): the standalone listener's response is completely
independent of the request — any two requests, whatever their method, path,
headers, or body, receive identical status, headers, and body. -/
theorem claim_C9 : ∀ r₁ r₂ : HttpRequest, helloHandler r₁ = helloHandler r₂ :=
  fun _ _ => rfl

/-- C3: when the host-identifier environment value is absent, both generation
functions produce a snapshot whose host field is the literal fallback string
(a genuine `String`, so never null/undefined, and no error path exists). -/
theorem claim_C3 : ∀ now : Nat,
    ((getServerSideProps now none).props.lookup "hostname" = some fallbackHostname ∧
     (getStaticProps now none).props.lookup "hostname" = some fallbackHostname) ∧
    fallbackHostname = "Not set (check your platform configuration)" := by
  intro now
  refine ⟨⟨?_, ?_⟩, rfl⟩ <;> simp [getServerSideProps, getStaticProps, List.lookup, jsStringOr]

/-- C5 counterexample: at time 0 with the environment unset, the
windowed-cache page's `props` carries a third field `nextRevalidation`, so it
does not consist exactly of the two PageSnapshot fields. -/
theorem claim_C5_counterexample :
    (getStaticProps 0 none).props.map Prod.fst =
      ["renderTime", "hostname", "nextRevalidation"] ∧
    ((getStaticProps 0 none).props.map Prod.fst).length ≠ 2 := by
  exact ⟨rfl, by decide⟩

/-- C5 (amended): the on-demand page's `props` consists exactly of the two
PageSnapshot fields; the windowed-cache page's `props` consists of the two
PageSnapshot fields plus one extra display field `nextRevalidation`, an
ISO-8601 timestamp 10 seconds after generation. -/
theorem claim_C5 : ∀ (now : Nat) (env : Option String),
    (getServerSideProps now env).props.map Prod.fst = ["serverTime", "hostname"] ∧
    (getStaticProps now env).props.map Prod.fst =
      ["renderTime", "hostname", "nextRevalidation"] ∧
    (getStaticProps now env).props.lookup "nextRevalidation" =
      some (toISOString (now + 10000)) := by
  intro now env
  refine ⟨rfl, rfl, ?_⟩
  simp [getStaticProps, List.lookup]

/-- C10 (implicit): both generation functions substitute the fallback for any
falsy host-identifier value — absent or empty — and the resulting host field
is always a non-empty string. -/
theorem claim_C10 :
    (∀ (now : Nat) (env : Option String), env = none ∨ env = some "" →
      (getServerSideProps now env).props.lookup "hostname" = some fallbackHostname ∧
      (getStaticProps now env).props.lookup "hostname" = some fallbackHostname) ∧
    (∀ (now : Nat) (env : Option String) (s : String),
      (getServerSideProps now env).props.lookup "hostname" = some s ∨
      (getStaticProps now env).props.lookup "hostname" = some s → s ≠ "") := by
  constructor
  · rintro now env (rfl | rfl) <;>
      constructor <;> simp [getServerSideProps, getStaticProps, List.lookup, jsStringOr]
  · rintro now env s (h | h) <;>
    · simp only [getServerSideProps, getStaticProps, List.lookup] at h
      simp at h
      rcases env with _ | v
      · simp [jsStringOr] at h
        simp [← h, fallbackHostname]
      · by_cases hv : v = "" <;> simp [jsStringOr, hv] at h <;>
          simp [← h, fallbackHostname, hv]

/-- C10 witness: an empty-string host identifier concretely yields the
fallback. -/
theorem claim_C10_witness :
    ((some "" : Option String) = none ∨ (some "" : Option String) = some "") ∧
    (getServerSideProps 0 (some "")).props.lookup "hostname" = some fallbackHostname :=
  ⟨Or.inr rfl, (claim_C10.1 0 (some "") (Or.inr rfl)).1⟩

lemma timeTuple_mono {t1 t2 : Nat} (h : t1 < t2) (hd : daysOf t1 = daysOf t2) :
    hourOf t1 < hourOf t2 ∨ (hourOf t1 = hourOf t2 ∧
      (minOf t1 < minOf t2 ∨ (minOf t1 = minOf t2 ∧
        (secOf t1 < secOf t2 ∨ (secOf t1 = secOf t2 ∧ milliOf t1 < milliOf t2))))) := by
  unfold hourOf minOf secOf milliOf msodOf daysOf at *
  omega

theorem toISOString_lt {t1 t2 : Nat} (h : t1 < t2) (hb : t2 < isoBound) :
    toISOString t1 < toISOString t2 := by
  have hpow2 : (10 : Nat) ^ 2 = 100 := by norm_num
  have hpow3 : (10 : Nat) ^ 3 = 1000 := by norm_num
  have hpow4 : (10 : Nat) ^ 4 = 10000 := by norm_num
  have hd2 : daysOf t2 < 2932897 := by unfold daysOf isoBound at *; omega
  have hdle : daysOf t1 ≤ daysOf t2 := Nat.div_le_div_right (le_of_lt h)
  have hy2 : yearOf t2 < 10 ^ 4 := by
    have := yearFromDays_le_9999 hd2
    unfold yearOf; omega
  have hy1 : yearOf t1 < 10 ^ 4 := by
    have hm := yearFromDays_mono hdle
    unfold yearOf at *; omega
  have hwb1 := dayWithinYear_bounds (daysOf t1)
  have hwb2 := dayWithinYear_bounds (daysOf t2)
  have hmo1 : monthOf t1 < 10 ^ 2 := by
    have := monthFromDW_le_12 hwb1.1 hwb1.2
    unfold monthOf monthFromDay; omega
  have hmo2 : monthOf t2 < 10 ^ 2 := by
    have := monthFromDW_le_12 hwb2.1 hwb2.2
    unfold monthOf monthFromDay; omega
  have hda1 : dateOf t1 < 10 ^ 2 := by
    have := dateFromDW_le_31 hwb1.1 hwb1.2
    unfold dateOf dateFromDay; omega
  have hda2 : dateOf t2 < 10 ^ 2 := by
    have := dateFromDW_le_31 hwb2.1 hwb2.2
    unfold dateOf dateFromDay; omega
  have hh1 : hourOf t1 < 10 ^ 2 := by unfold hourOf msodOf; omega
  have hh2 : hourOf t2 < 10 ^ 2 := by unfold hourOf msodOf; omega
  have hmi1 : minOf t1 < 10 ^ 2 := by unfold minOf msodOf; omega
  have hmi2 : minOf t2 < 10 ^ 2 := by unfold minOf msodOf; omega
  have hs1 : secOf t1 < 10 ^ 2 := by unfold secOf msodOf; omega
  have hs2 : secOf t2 < 10 ^ 2 := by unfold secOf msodOf; omega
  have hms1 : milliOf t1 < 10 ^ 3 := by unfold milliOf msodOf; omega
  have hms2 : milliOf t2 < 10 ^ 3 := by unfold milliOf msodOf; omega
  suffices hlex : List.Lex (· < ·) (isoChars t1) (isoChars t2) by
    exact String.lt_iff_toList_lt.mpr hlex
  unfold isoChars
  rcases Nat.lt_or_ge (daysOf t1) (daysOf t2) with hdd | hdd
  · have trip := dateTriple_mono hdd
    rcases trip with hy | ⟨hy, hm | ⟨hm, hda⟩⟩
    · exact lex_pad_step '-' hy1 hy2 (Or.inl hy)
    · exact lex_pad_step '-' hy1 hy2 (Or.inr ⟨hy, lex_pad_step '-' hmo1 hmo2 (Or.inl hm)⟩)
    · exact lex_pad_step '-' hy1 hy2 (Or.inr ⟨hy, lex_pad_step '-' hmo1 hmo2
        (Or.inr ⟨hm, lex_pad_step 'T' hda1 hda2 (Or.inl hda)⟩)⟩)
  · have hdeq : daysOf t1 = daysOf t2 := by omega
    have hyq : yearOf t1 = yearOf t2 := by unfold yearOf; rw [hdeq]
    have hmq : monthOf t1 = monthOf t2 := by unfold monthOf; rw [hdeq]
    have hdaq : dateOf t1 = dateOf t2 := by unfold dateOf; rw [hdeq]
    have tt := timeTuple_mono h hdeq
    refine lex_pad_step '-' hy1 hy2 (Or.inr ⟨hyq, ?_⟩)
    refine lex_pad_step '-' hmo1 hmo2 (Or.inr ⟨hmq, ?_⟩)
    refine lex_pad_step 'T' hda1 hda2 (Or.inr ⟨hdaq, ?_⟩)
    rcases tt with hh | ⟨hh, hmi | ⟨hmi, hs | ⟨hs, hms⟩⟩⟩
    · exact lex_pad_step ':' hh1 hh2 (Or.inl hh)
    · exact lex_pad_step ':' hh1 hh2 (Or.inr ⟨hh, lex_pad_step ':' hmi1 hmi2 (Or.inl hmi)⟩)
    · exact lex_pad_step ':' hh1 hh2 (Or.inr ⟨hh, lex_pad_step ':' hmi1 hmi2
        (Or.inr ⟨hmi, lex_pad_step '.' hs1 hs2 (Or.inl hs)⟩)⟩)
    · exact lex_pad_step ':' hh1 hh2 (Or.inr ⟨hh, lex_pad_step ':' hmi1 hmi2
        (Or.inr ⟨hmi, lex_pad_step '.' hs1 hs2
          (Or.inr ⟨hs, lex_pad_step 'Z' hms1 hms2 (Or.inl hms)⟩)⟩)⟩)

theorem toISOString_le {t1 t2 : Nat} (h : t1 ≤ t2) (hb : t2 < isoBound) :
    toISOString t1 ≤ toISOString t2 := by
  rcases Nat.eq_or_lt_of_le h with heq | hlt
  · rw [heq]
  · exact le_of_lt (toISOString_lt hlt hb)

lemma serverTime_lookup (t : Nat) (e : Option String) :
    (getServerSideProps t e).props.lookup "serverTime" = some (toISOString t) := by
  simp [getServerSideProps, List.lookup]

/-- C4: on every request to the on-demand page, the generation function
produces a snapshot whose timestamp is the current clock reading rendered as
an ISO-8601 string (24-character `YYYY-MM-DDTHH:mm:ss.sssZ` layout), whose
host field is the current host-identifier value, with no `revalidate` policy;
the output is a function only of the clock and the environment value at call
time (no stored state). -/
theorem claim_C4 : ∀ (now : Nat) (env : Option String),
    (getServerSideProps now env).props.lookup "serverTime" = some (toISOString now) ∧
    (getServerSideProps now env).props.lookup "hostname" =
      some (jsStringOr env fallbackHostname) ∧
    (toISOString now).length = 24 ∧
    (getServerSideProps now env).revalidate = none ∧
    (∀ now' env', now' = now → env' = env →
      getServerSideProps now' env' = getServerSideProps now env) := by
  intro now env
  refine ⟨serverTime_lookup now env, ?_, toISOString_length now, rfl, ?_⟩
  · simp [getServerSideProps, List.lookup]
  · intro now' env' h1 h2
    rw [h1, h2]

/-- C4 witness: concrete instantiation at time 0 with the environment unset. -/
theorem claim_C4_witness :
    (getServerSideProps 0 none).props.lookup "serverTime" = some (toISOString 0) ∧
    getServerSideProps 0 none = getServerSideProps 0 none :=
  ⟨(claim_C4 0 none).1, (claim_C4 0 none).2.2.2.2 0 none rfl rfl⟩

/-- C6: over any sequence of requests to the on-demand generator driven by a
monotone clock (before the year 10000), the returned `serverTime` strings are
non-decreasing in the string order, and strictly increase between any two
requests whose clock readings are at least 1 ms apart. -/
theorem claim_C6 {N : Nat} (clock : Fin N → Nat) (env : Fin N → Option String)
    (hmono : ∀ i j : Fin N, i ≤ j → clock i ≤ clock j)
    (hbound : ∀ i : Fin N, clock i < isoBound) :
    (∀ i j : Fin N, i ≤ j → ∀ si sj : String,
      (getServerSideProps (clock i) (env i)).props.lookup "serverTime" = some si →
      (getServerSideProps (clock j) (env j)).props.lookup "serverTime" = some sj →
      si ≤ sj) ∧
    (∀ i j : Fin N, i ≤ j → clock i + 1 ≤ clock j → ∀ si sj : String,
      (getServerSideProps (clock i) (env i)).props.lookup "serverTime" = some si →
      (getServerSideProps (clock j) (env j)).props.lookup "serverTime" = some sj →
      si < sj) := by
  constructor
  · intro i j hij si sj hsi hsj
    rw [serverTime_lookup] at hsi hsj
    cases hsi
    cases hsj
    exact toISOString_le (hmono i j hij) (hbound j)
  · intro i j hij hsep si sj hsi hsj
    rw [serverTime_lookup] at hsi hsj
    cases hsi
    cases hsj
    exact toISOString_lt (by omega) (hbound j)

/-- C6 witness: two requests one day apart produce strictly increasing
timestamps. -/
theorem claim_C6_witness :
    86400000 * (0 : Fin 2).val + 1 ≤ 86400000 * (1 : Fin 2).val ∧
    toISOString (86400000 * (0 : Fin 2).val) < toISOString (86400000 * (1 : Fin 2).val) := by
  refine ⟨by decide, ?_⟩
  exact (claim_C6 (fun k => 86400000 * k.val) (fun _ => none)
      (by decide) (by decide)).2 0 1 (by decide) (by decide)
      (toISOString (86400000 * (0 : Fin 2).val)) (toISOString (86400000 * (1 : Fin 2).val))
      (serverTime_lookup _ _) (serverTime_lookup _ _)

lemma revalidateWindowMs_eq : revalidateWindowMs = 10000 := rfl

lemma serveRequest_snd (c : IsrCache) (t : Nat) : (serveRequest c t).2 = c.snapshot := by
  unfold serveRequest
  split <;> rfl

lemma serveRequest_fresh {c : IsrCache} {t : Nat}
    (h : t < c.generatedAt + revalidateWindowMs) :
    serveRequest c t = (c, c.snapshot) := by
  have hs : isStale c t = false := by
    unfold isStale
    exact decide_eq_false (by omega)
  unfold serveRequest
  rw [hs]
  rfl

lemma serveRequest_inflight {c : IsrCache} (h : c.regenInFlight = true) (t : Nat) :
    serveRequest c t = (c, c.snapshot) := by
  unfold serveRequest
  rw [h]
  simp

lemma serveRequest_trigger {c : IsrCache} {t : Nat} (hf : c.regenInFlight = false)
    (hstale : c.generatedAt + revalidateWindowMs ≤ t) :
    serveRequest c t =
      ({ c with regenInFlight := true, regenCount := c.regenCount + 1 }, c.snapshot) := by
  have hs : isStale c t = true := by
    unfold isStale
    exact decide_eq_true hstale
  unfold serveRequest
  rw [hs, hf]
  rfl

lemma serveAll_fresh (c : IsrCache) (ts : List Nat)
    (h : ∀ t ∈ ts, t < c.generatedAt + revalidateWindowMs) :
    serveAll c ts = (c, ts.map fun _ => c.snapshot) := by
  induction ts with
  | nil => rfl
  | cons t ts ih =>
    unfold serveAll
    rw [serveRequest_fresh (h t (List.mem_cons_self t ts))]
    dsimp only
    rw [ih (fun u hu => h u (List.mem_cons_of_mem t hu))]
    rfl

lemma serveAll_inflight {c : IsrCache} (hc : c.regenInFlight = true) (ts : List Nat) :
    serveAll c ts = (c, ts.map fun _ => c.snapshot) := by
  induction ts with
  | nil => rfl
  | cons t ts ih =>
    unfold serveAll
    rw [serveRequest_inflight hc]
    dsimp only
    rw [ih]
    rfl

/-- C7: windowed cache with window W = `revalidate` seconds: requests within
W of the generation all return the identical snapshot and leave the cache
unchanged; the first request at or past W still returns the old snapshot while
triggering a regeneration; once the regeneration completes, a subsequent
request returns the freshly generated snapshot, whose timestamp is strictly
newer than the old one. -/
theorem claim_C7 (t0 t1 t2 t3 n : Nat) (env0 env2 : Option String) (ts : List Nat)
    (hfresh : ∀ t ∈ ts, t < t0 + revalidateWindowMs)
    (hstale : t0 + revalidateWindowMs ≤ t1)
    (ht2 : t0 < t2) (hb : t2 < isoBound) :
    (serveAll (initCache t0 env0 n) ts).1 = initCache t0 env0 n ∧
    (serveAll (initCache t0 env0 n) ts).2 =
      ts.map (fun _ => (initCache t0 env0 n).snapshot) ∧
    serveRequest (initCache t0 env0 n) t1 =
      ({ initCache t0 env0 n with regenInFlight := true, regenCount := n + 1 },
       (initCache t0 env0 n).snapshot) ∧
    (serveRequest
        (completeRegen
          { initCache t0 env0 n with regenInFlight := true, regenCount := n + 1 } t2 env2)
        t3).2 = (getStaticProps t2 env2).props ∧
    (initCache t0 env0 n).snapshot.lookup "renderTime" = some (toISOString t0) ∧
    (getStaticProps t2 env2).props.lookup "renderTime" = some (toISOString t2) ∧
    toISOString t0 < toISOString t2 := by
  have hall := serveAll_fresh (initCache t0 env0 n) ts hfresh
  refine ⟨by rw [hall], by rw [hall], serveRequest_trigger rfl hstale, ?_, ?_, ?_,
    toISOString_lt ht2 hb⟩
  · rw [serveRequest_snd]
    rfl
  · simp [initCache, getStaticProps, List.lookup]
  · simp [getStaticProps, List.lookup]

/-- C7 witness: the end-to-end scenario of the spec — generation at t=0s,
requests at 2s, 5s, 9s (fresh), 11s (stale, triggers), completion at 11.05s,
request at 12s. -/
theorem claim_C7_witness :
    ((0 : Nat) + revalidateWindowMs ≤ 11000 ∧ (11050 : Nat) < isoBound) ∧
    serveRequest (initCache 0 none 0) 11000 =
      ({ initCache 0 none 0 with regenInFlight := true, regenCount := 0 + 1 },
       (initCache 0 none 0).snapshot) ∧
    toISOString 0 < toISOString 11050 := by
  have h := claim_C7 0 11000 11050 12000 0 none none [2000, 5000, 9000]
    (by decide) (by decide) (by decide) (by decide)
  exact ⟨⟨by decide, by decide⟩, h.2.2.1, h.2.2.2.2.2.2⟩

/-- C8: single-flight — if N ≥ 1 requests arrive at the same instant while the
snapshot is Stale and no regeneration is in flight, exactly one regeneration
is triggered (the counter increases by exactly 1, not N), and every one of the
N requesters receives the same old cached snapshot. -/
theorem claim_C8 (c : IsrCache) (t N : Nat) (hN : 1 ≤ N)
    (hf : c.regenInFlight = false)
    (hstale : c.generatedAt + revalidateWindowMs ≤ t) :
    (serveAll c (List.replicate N t)).1.regenCount = c.regenCount + 1 ∧
    (serveAll c (List.replicate N t)).1.regenInFlight = true ∧
    (serveAll c (List.replicate N t)).2 = List.replicate N c.snapshot := by
  obtain ⟨k, rfl⟩ : ∃ k, N = k + 1 := ⟨N - 1, by omega⟩
  rw [List.replicate_succ]
  unfold serveAll
  rw [serveRequest_trigger hf hstale]
  dsimp only
  rw [serveAll_inflight rfl]
  refine ⟨rfl, rfl, ?_⟩
  simp [List.map_replicate, List.replicate_succ]

/-- C8 witness: three simultaneous stale requests bump the regeneration
counter from 0 to exactly 1. -/
theorem claim_C8_witness :
    ((1 : Nat) ≤ 3 ∧ (initCache 0 none 0).regenInFlight = false ∧
      (initCache 0 none 0).generatedAt + revalidateWindowMs ≤ 10000) ∧
    (serveAll (initCache 0 none 0) (List.replicate 3 10000)).1.regenCount = 0 + 1 :=
  ⟨⟨by decide, rfl, by decide⟩,
   (claim_C8 (initCache 0 none 0) 10000 3 (by decide) rfl (by decide)).1⟩
